import Mathlib

/-!
Verification of the MCP Storybook Image Generator request pipeline
(`src/index.ts`, `src/cli.ts`, `src/run.mjs`) against its specification.

The TypeScript source is shallowly embedded: streamed provider responses
become explicit lists of chunks (a whole-call rejection is a separate
constructor), filesystem effects become oracles (`existsSync`,
`mkdirFails`, `writeFails`) threaded through an environment record, and
thrown JS errors become `Except` values.  JS `undefined` string fields are
`Option String`; interpolating a possibly-undefined value is `jsStr`
(yielding the literal "undefined", as JS template literals do).  Path
separators are modelled uniformly as "/" and `path.normalize` as the
identity, which no claim depends on.
-/

namespace Storybook

/-- JS template-literal interpolation of a possibly-undefined string:
`${x}` renders `undefined` as the literal string "undefined". -/
def jsStr (o : Option String) : String := o.getD "undefined"

/-- Model of `path.join(a, b)` with a uniform "/" separator. -/
def pathJoin (a b : String) : String := a ++ "/" ++ b

/-- Model of `path.dirname`: everything before the last "/", or "." when
there is no separator. -/
def pathDirname (s : String) : String :=
  let rev := s.toList.reverse
  let post := rev.takeWhile (fun ch => !(ch == '/'))
  if post.length == rev.length then "."
  else String.mk ((rev.drop (post.length + 1)).reverse)

/-- Model of `fileName.replace(/\.[^/.]+$/, '')` (index.ts:356): strips a
trailing ".ext" where ext is nonempty and contains neither "." nor "/". -/
def stripExt (s : String) : String :=
  let rev := s.toList.reverse
  let pre := rev.takeWhile (fun ch => !(ch == '.') && !(ch == '/'))
  match pre, rev.drop pre.length with
  | _ :: _, '.' :: rest => String.mk rest.reverse
  | _, _ => s

/-- Remove the first occurrence of pattern `pat` from the char list
(JS `String.prototype.replace` with a plain-string pattern and empty
replacement). -/
def removeFirstList (pat : List Char) : List Char → List Char
  | [] => []
  | c :: rest =>
    if List.isPrefixOf pat (c :: rest) then List.drop (pat.length - 1) rest
    else c :: removeFirstList pat rest

/-- Model of `s.replace(pat, '')` for a plain-string `pat` (first
occurrence only, as in `outputFileName.replace('.png', '')`,
index.ts:434). -/
def removeFirst (s pat : String) : String :=
  match pat.toList with
  | [] => s
  | p => String.mk (removeFirstList p s.toList)

/-- 6-bit value of a base64 alphabet character. -/
def b64Index (c : Char) : Option Nat :=
  if 'A' ≤ c && c ≤ 'Z' then some (c.toNat - 'A'.toNat)
  else if 'a' ≤ c && c ≤ 'z' then some (c.toNat - 'a'.toNat + 26)
  else if '0' ≤ c && c ≤ '9' then some (c.toNat - '0'.toNat + 52)
  else if c == '+' then some 62
  else if c == '/' then some 63
  else none

/-- Reassemble bytes from a list of 6-bit values. -/
def decodeGroups : List Nat → List Nat
  | a :: b :: c :: d :: rest =>
    (a * 4 + b / 16) :: ((b % 16) * 16 + c / 4) :: ((c % 4) * 64 + d) :: decodeGroups rest
  | [a, b] => [a * 4 + b / 16]
  | [a, b, c] => [a * 4 + b / 16, (b % 16) * 16 + c / 4]
  | _ => []

/-- Model of `Buffer.from(str, 'base64')` (lenient: non-alphabet
characters, including padding, are skipped). -/
def base64Decode (s : String) : List Nat :=
  decodeGroups (s.toList.filterMap b64Index)

/-! ## Provider response model

`@google/genai`'s `generateContentStream` yields chunks shaped
`{ candidates?: [{ content?: { parts?: [{ text?, inlineData? }] } }] }`.
All fields are optional; the source indexes `candidates[0]` and
`parts[0]` without guarding against *empty* arrays, which in JS throws a
TypeError (`undefined.content` / `undefined.text`). -/

structure InlineData where
  data : Option String
deriving DecidableEq

structure Part where
  text : Option String := none
  inlineData : Option InlineData := none
deriving DecidableEq

structure Content where
  parts : Option (List Part)
deriving DecidableEq

structure Candidate where
  content : Option Content
deriving DecidableEq

structure Chunk where
  candidates : Option (List Candidate)
deriving DecidableEq

/-- One upstream `generateContentStream` call: either the call (or the
iteration) fails with an error message, or it delivers a finite list of
chunks.  A mid-iteration failure is observationally the `failure` case,
since both consumers discard partial progress on a thrown error. -/
inductive GenStream where
  | failure : String → GenStream
  | chunks : List Chunk → GenStream
deriving DecidableEq

/-- Boolean success test for `Except`. -/
def exOk {ε α : Type} : Except ε α → Bool
  | Except.ok _ => true
  | Except.error _ => false

/-! ## generateStory (index.ts:270-309) -/

/-- One iteration of the story chunk loop (index.ts:295-302): the guard
`chunk.candidates && chunk.candidates[0].content &&
chunk.candidates[0].content.parts`, then `parts[0]`, then
`typeof part.text === 'string'`.  `candidates: []` and `parts: []` throw
a TypeError (JS property access on `undefined`).  Returns the text to
append, `none` to skip, or the thrown error. -/
def storyChunkText (c : Chunk) : Except String (Option String) :=
  match c.candidates with
  | none => Except.ok none
  | some [] => Except.error "Cannot read properties of undefined (reading 'content')"
  | some (cand :: _) =>
    match cand.content with
    | none => Except.ok none
    | some ct =>
      match ct.parts with
      | none => Except.ok none
      | some [] => Except.error "Cannot read properties of undefined (reading 'text')"
      | some (pt :: _) => Except.ok pt.text

/-- The story accumulation loop (index.ts:294-302), with the running
`storyText` accumulator. -/
def collectStory : List Chunk → String → Except String String
  | [], acc => Except.ok acc
  | c :: cs, acc =>
    match storyChunkText c with
    | Except.error e => Except.error e
    | Except.ok none => collectStory cs acc
    | Except.ok (some t) => collectStory cs (acc ++ t)

/-- Fallback returned when the stream yields no text (index.ts:304). -/
def storyFallbackEmpty : String :=
  "Once upon a time... (Story generation failed, but the image has been created)"

/-- Fallback returned by the catch block (index.ts:307), embedding the
error message. -/
def storyFallbackError (msg : String) : String :=
  "Once upon a time... (Story generation failed: " ++ msg ++ ")"

/-- `generateStory` (index.ts:270-309), abstracted over the upstream
stream.  The catch converts every error to a fallback string; the
`storyText || fallback` expression maps the empty string to the fixed
fallback. -/
def generateStory (s : GenStream) : String :=
  match s with
  | GenStream.failure msg => storyFallbackError msg
  | GenStream.chunks cs =>
    match collectStory cs "" with
    | Except.error msg => storyFallbackError msg
    | Except.ok txt => if txt = "" then storyFallbackEmpty else txt

/-- The first part's text of a chunk's first candidate, when every layer
is present (what the loop body actually appends, absent a TypeError). -/
def chunkFirstText (c : Chunk) : Option String :=
  match c.candidates with
  | none => none
  | some [] => none
  | some (cand :: _) =>
    match cand.content with
    | none => none
    | some ct =>
      match ct.parts with
      | none => none
      | some [] => none
      | some (pt :: _) => pt.text

/-- Concatenation of the per-chunk first-part texts, in stream order. -/
def firstTextsConcat : List Chunk → String
  | [] => ""
  | c :: cs => (chunkFirstText c).getD "" ++ firstTextsConcat cs

/-- All text fragments of a chunk, across every candidate and every part
(the reading used by the specification's "all textual fragments"). -/
def chunkAllTexts (c : Chunk) : List String :=
  ((c.candidates.getD []).map fun cand =>
    ((cand.content.bind Content.parts).getD []).filterMap Part.text).flatten

/-- Spec-side concatenation, following the claim's words: "the
concatenation, in stream order, of all textual fragments across all
chunks of the stream". -/
def specStoryConcat : List Chunk → String
  | [] => ""
  | c :: cs => String.join (chunkAllTexts c) ++ specStoryConcat cs

/-! ## Image stream scan (index.ts:382-464) -/

/-- One iteration of the image chunk loop: the `continue` guard
(index.ts:383) followed by the `parts[0].inlineData` access
(index.ts:386).  As in the story loop, `candidates: []` and `parts: []`
throw a TypeError.  Returns `some` inline data when found, `none` to
continue, or the thrown error. -/
def imageChunkInline (c : Chunk) : Except String (Option InlineData) :=
  match c.candidates with
  | none => Except.ok none
  | some [] => Except.error "Cannot read properties of undefined (reading 'content')"
  | some (cand :: _) =>
    match cand.content with
    | none => Except.ok none
    | some ct =>
      match ct.parts with
      | none => Except.ok none
      | some [] => Except.error "Cannot read properties of undefined (reading 'inlineData')"
      | some (pt :: _) => Except.ok pt.inlineData

/-- Drain the image stream until the first chunk carrying inline data
(first-found wins; later chunks are never consumed).  `ok none` means the
stream completed without any inline payload. -/
def findInline : List Chunk → Except String (Option InlineData)
  | [] => Except.ok none
  | c :: cs =>
    match imageChunkInline c with
    | Except.error e => Except.error e
    | Except.ok none => findInline cs
    | Except.ok (some d) => Except.ok (some d)

/-! ## Path resolver (index.ts:82-140) -/

/-- `os.platform()` outcomes distinguished by the source. -/
inductive Platform where
  | win32
  | darwin
  | linux
deriving DecidableEq

/-- Ambient OS state read by `getDesktopPath`: platform, `os.homedir()`,
`os.userInfo().username`, the `USERPROFILE` and `XDG_DESKTOP_DIR`
environment variables, and the `fs.existsSync` oracle. -/
structure Sys where
  platform : Platform
  home : String
  username : String
  userprofile : Option String
  xdgDesktop : Option String
  existsSync : String → Bool

/-- JS truthiness of a possibly-undefined environment string: falsy when
undefined or empty. -/
def jsTruthy (o : Option String) : Bool :=
  match o with
  | none => false
  | some s => !(s == "")

/-- Linux tail of `getDesktopPath` (index.ts:117-123): `home/Desktop`
when it exists, else the home directory. -/
def linuxDesktopFallback (s : Sys) : String :=
  if s.existsSync (pathJoin s.home "Desktop") then pathJoin s.home "Desktop" else s.home

/-- `getDesktopPath` (index.ts:82-129).  The surrounding try/catch only
fires when an `os` call throws, which the model's total fields exclude. -/
def getDesktopPath (s : Sys) : String :=
  match s.platform with
  | Platform.win32 =>
    let desktopPath :=
      match s.userprofile with
      | some up =>
        if up == "" then pathJoin (pathJoin (pathJoin "C:" "Users") s.username) "Desktop"
        else pathJoin up "Desktop"
      | none => pathJoin (pathJoin (pathJoin "C:" "Users") s.username) "Desktop"
    if s.existsSync desktopPath then desktopPath else s.home
  | Platform.darwin => pathJoin s.home "Desktop"
  | Platform.linux =>
    match s.xdgDesktop with
    | some x => if !(x == "") && s.existsSync x then x else linuxDesktopFallback s
    | none => linuxDesktopFallback s

/-- Spec-side desktop policy, worded from the claim: on Windows,
USERPROFILE joined with "Desktop" (or the constructed
C:/Users/username/Desktop when USERPROFILE is unset, i.e. JS-falsy),
falling back to home when that path does not exist; on macOS always
home/Desktop with no existence check; otherwise XDG_DESKTOP_DIR if it
points to an existing directory, else home/Desktop if it exists, else
home. -/
def desktopPathSpec (s : Sys) : String :=
  match s.platform with
  | Platform.win32 =>
    let candidate :=
      if jsTruthy s.userprofile then pathJoin (s.userprofile.getD "") "Desktop"
      else pathJoin (pathJoin (pathJoin "C:" "Users") s.username) "Desktop"
    if s.existsSync candidate then candidate else s.home
  | Platform.darwin => pathJoin s.home "Desktop"
  | Platform.linux =>
    if jsTruthy s.xdgDesktop && s.existsSync (s.xdgDesktop.getD "") then s.xdgDesktop.getD ""
    else if s.existsSync (pathJoin s.home "Desktop") then pathJoin s.home "Desktop"
    else s.home

/-! ## Persistence writer (index.ts:131-239) -/

/-- Filesystem and configuration context of the two save functions:
the `SAVE_TO_DESKTOP === "true"` check, `process.cwd()`, and failure
oracles for `fs.mkdirSync` and `fs.writeFileSync` keyed by path. -/
structure SaveEnv where
  sys : Sys
  saveToDesktop : Bool
  cwd : String
  mkdirFails : String → Bool
  writeFails : String → Bool

/-- `ensureDirectoryExists` (index.ts:131-140): no-op when the directory
exists; otherwise `mkdirSync` which may throw (rethrown to the caller). -/
def ensureDirectoryExists (e : SaveEnv) (dir : String) : Except String Unit :=
  if e.sys.existsSync dir then Except.ok ()
  else if e.mkdirFails dir then Except.error ("EMKDIR:" ++ dir) else Except.ok ()

/-- The directory targeted by the try-block of both save functions:
desktop mode joins `getDesktopPath()` with "storybook-images", local mode
joins `process.cwd()` with "storybook-images". -/
def primaryDir (e : SaveEnv) : String :=
  if e.saveToDesktop then pathJoin (getDesktopPath e.sys) "storybook-images"
  else pathJoin e.cwd "storybook-images"

/-- The try-block shared by `saveImageWithProperPath` and
`saveStoryWithProperPath` (the two source functions are identical except
for the payload type): ensure the primary directory, then write.  Returns
the saved path and the list of paths where a write was attempted. -/
def tryPrimarySave (e : SaveEnv) (fileName : String) : Except String String × List String :=
  let dir := primaryDir e
  match ensureDirectoryExists e dir with
  | Except.error m => (Except.error m, [])
  | Except.ok _ =>
    let p := pathJoin dir fileName
    if e.writeFails p then (Except.error ("EWRITE:" ++ p), [p]) else (Except.ok p, [p])

/-- The catch-block of both save functions (index.ts:182-191, 229-238):
ensure `cwd/output`, then write there once; nothing catches a failure
here, so it propagates. -/
def fallbackSave (e : SaveEnv) (fileName : String) : Except String String × List String :=
  let fallbackDir := pathJoin e.cwd "output"
  match ensureDirectoryExists e fallbackDir with
  | Except.error m => (Except.error m, [])
  | Except.ok _ =>
    let p := pathJoin fallbackDir fileName
    if e.writeFails p then (Except.error ("EWRITE:" ++ p), [p]) else (Except.ok p, [p])

/-- Common body of the two save functions: the try-block, with the
catch-block running the single fallback write on any failure. -/
def saveWithProperPath (e : SaveEnv) (fileName : String) : Except String String × List String :=
  match tryPrimarySave e fileName with
  | (Except.ok p, w) => (Except.ok p, w)
  | (Except.error _, w) =>
    let fb := fallbackSave e fileName
    (fb.1, w ++ fb.2)

/-- `saveImageWithProperPath` (index.ts:142-192); the binary payload does
not influence path resolution. -/
def saveImageWithProperPath (e : SaveEnv) (_buffer : List Nat) (fileName : String) :
    Except String String × List String :=
  saveWithProperPath e fileName

/-- `saveStoryWithProperPath` (index.ts:194-239); the text payload does
not influence path resolution. -/
def saveStoryWithProperPath (e : SaveEnv) (_story : String) (fileName : String) :
    Except String String × List String :=
  saveWithProperPath e fileName

/-- A filesystem in which no mkdir and no write fails. -/
def fsOk (e : SaveEnv) : Prop :=
  (∀ p, e.writeFails p = false) ∧ (∀ p, e.mkdirFails p = false)

/-- Direct `ensureDirectoryExists` + `fs.writeFileSync` pair used for the
HTML preview (index.ts:438-439). -/
def writeDirect (e : SaveEnv) (p : String) (_content : String) : Except String Unit :=
  match ensureDirectoryExists e (pathDirname p) with
  | Except.error m => Except.error m
  | Except.ok _ => if e.writeFails p then Except.error ("EWRITE:" ++ p) else Except.ok ()

/-! ## Process bootstrap (cli.ts:9-61, run.mjs:14-58, index.ts:44-54) -/

/-- The environment variables touched by the bootstrap wiring. -/
structure EnvVars where
  geminiApiKey : Option String
  saveToDesktop : Option String
  debug : Option String
deriving DecidableEq

/-- Result of `parseArgs` over the declared options.  The boolean options
carry `default: false`, so an absent flag parses to `false`, not
`undefined`. -/
structure CliValues where
  apiKey : Option String
  saveToDesktop : Bool
  debug : Bool
  help : Bool
deriving DecidableEq

/-- The value following a `--flag` token on the command line, if any
(`--flag value` form of `parseArgs` string options). -/
def findOptValue (flag : String) : List String → Option String
  | [] => none
  | a :: rest => if a == flag then rest.head? else findOptValue flag rest

/-- `parseArgs` over the four declared options (cli.ts:9-21,
run.mjs:14-26): string `--api-key`, booleans defaulting to `false`. -/
def parseArgv (argv : List String) : CliValues :=
  { apiKey := findOptValue "--api-key" argv
    saveToDesktop := argv.contains "--save-to-desktop"
    debug := argv.contains "--debug"
    help := argv.contains "--help" }

/-- The CLI-to-environment wiring (cli.ts:44-61; run.mjs:48-58 behaves
identically because its `!== undefined` guards never fire under the
parser defaults): the API key is copied only when JS-truthy, while
SAVE_TO_DESKTOP and DEBUG are unconditionally assigned "true"/"false"
from the parsed booleans. -/
def applyCliToEnv (cli : CliValues) (env : EnvVars) : EnvVars :=
  let env1 :=
    match cli.apiKey with
    | some k => if !(k == "") then { env with geminiApiKey := some k } else env
    | none => env
  { env1 with
    saveToDesktop := some (if cli.saveToDesktop then "true" else "false")
    debug := some (if cli.debug then "true" else "false") }

/-- `API_KEY = cliApiKey || process.env.GEMINI_API_KEY` (index.ts:49). -/
def resolveApiKey (cliApiKey : Option String) (env : EnvVars) : Option String :=
  match cliApiKey with
  | some k => if k == "" then env.geminiApiKey else some k
  | none => env.geminiApiKey

/-! ## Request handler / tool pipeline (index.ts:344-487) -/

/-- The tool arguments as delivered by the protocol; each field may be
absent. -/
structure Args where
  prompt : Option String
  fileName : Option String
  artStyle : Option String
deriving DecidableEq

/-- One tool invocation. -/
structure Invocation where
  toolName : String
  args : Args
deriving DecidableEq

/-- Per-invocation ambient state: save context, the two upstream streams
the provider will deliver, and the formatted timestamp taken when the
image chunk arrives (index.ts:391). -/
structure RunEnv where
  save : SaveEnv
  storyStream : GenStream
  imageStream : GenStream
  timestamp : String

/-- Observable side effects of one invocation, in order:  upstream
generation requests and successful file writes, plus the browser-open
attempt. -/
inductive Event where
  | storyGen (prompt : String)
  | imageGen (prompt : String)
  | writeStory (fileName content : String)
  | writeImage (fileName : String) (bytes : List Nat)
  | writePreview (fileName : String)
  | openPreview (path : String)
deriving DecidableEq

/-- The `toolResult` payload of a successful invocation
(index.ts:448-462). -/
structure ToolResult where
  success : Bool
  imagePath : String
  storyPath : String
  htmlPath : String
  contentText : String
  message : String
deriving DecidableEq

/-- Invocation-level protocol errors as they leave the handler
boundary.  `noImageData` is the distinguished `McpError` thrown at
index.ts:466 (rewrapped by the inner catch, which preserves its
distinguishing message); `failedGenerateImage` wraps other errors of the
inner try (`Failed to generate image: ...`); `errorProcessing` is the
outer-boundary wrap of non-McpError errors
(`Error processing request: ...`); `unknownTool` is index.ts:475. -/
inductive HErr where
  | noImageData
  | failedGenerateImage (msg : String)
  | errorProcessing (msg : String)
  | unknownTool (name : String)
deriving DecidableEq

/-- The story prompt template (index.ts:272-274). -/
def mkStoryPrompt (prompt : String) : String :=
  "Write a short children's story based on the following prompt: \"" ++ prompt ++
  "\". \n    The story should be engaging, appropriate for young children, have a clear beginning, middle, and end, \n    and convey a positive message or lesson. Keep it under 500 words."

/-- The style-qualified image prompt template (index.ts:360-362). -/
def mkImagePrompt (artStyle prompt : String) : String :=
  "Generate a " ++ artStyle ++ " style image for a children's storybook with this scene: " ++
  prompt ++
  ". \n      The image should be colorful, playful, and child-friendly. Use bright colors, appealing characters, \n      and a fun, engaging style that appeals to children."

/-- The HTML preview document (index.ts:400-431), with the static CSS
block elided; it embeds the prompt, the image as a file:// reference, the
story, and both saved paths. -/
def htmlPreview (prompt story imagePath storyPath : String) : String :=
  "<!DOCTYPE html><html><head><title>Storybook Preview</title></head><body><h1>Storybook Image</h1><div>Prompt: " ++
  prompt ++ "</div><img src=\"file://" ++ imagePath ++
  "\" alt=\"Generated storybook image\"><h2>The Story</h2><div>" ++ story ++
  "</div><div>Image saved to: " ++ imagePath ++ "</div><div>Story saved to: " ++ storyPath ++
  "</div></body></html>"

/-- Model of `fileName.endsWith('.png')` over character lists. -/
def endsWithStr (s suffix : String) : Bool :=
  List.isSuffixOf suffix.toList s.toList

/-- The timestamped output image name (index.ts:390-394): the caller's
name verbatim when it already ends in ".png", else
`fileName_timestamp.png`. -/
def outputFileNameOf (fileName timestamp : String) : String :=
  if endsWithStr fileName ".png" then fileName
  else fileName ++ "_" ++ timestamp ++ ".png"

/-- The `CallToolRequestSchema` handler (index.ts:344-487), returning the
boundary-normalized outcome and the event trace.  Mirrors the source
order: destructure arguments (the `artStyle = "3d cartoon"` default
applies only when the field is absent), generate the story, compute the
story file name (a TypeError when `fileName` is undefined, caught at the
outer boundary), save the story, request the image, scan the stream for
the first inline payload, save the image, write and open the HTML
preview, and assemble the result. -/
def handler (env : RunEnv) (req : Invocation) : Except HErr ToolResult × List Event :=
  if req.toolName = "generate_storybook_image" then
    let prompt := req.args.prompt
    let artStyle := req.args.artStyle.getD "3d cartoon"
    let story := generateStory env.storyStream
    let ev0 := [Event.storyGen (mkStoryPrompt (jsStr prompt))]
    match req.args.fileName with
    | none =>
      (Except.error (HErr.errorProcessing "Cannot read properties of undefined (reading 'replace')"), ev0)
    | some fn =>
      let storyFileName := stripExt fn ++ "_story.txt"
      match saveStoryWithProperPath env.save story storyFileName with
      | (Except.error m, _) => (Except.error (HErr.errorProcessing m), ev0)
      | (Except.ok storyPath, _) =>
        let ev1 := ev0 ++ [Event.writeStory storyFileName story]
        let imagePrompt := mkImagePrompt artStyle (jsStr prompt)
        let ev2 := ev1 ++ [Event.imageGen imagePrompt]
        match env.imageStream with
        | GenStream.failure m => (Except.error (HErr.failedGenerateImage m), ev2)
        | GenStream.chunks cs =>
          match findInline cs with
          | Except.error m => (Except.error (HErr.failedGenerateImage m), ev2)
          | Except.ok none => (Except.error HErr.noImageData, ev2)
          | Except.ok (some d) =>
            let buffer := base64Decode (d.data.getD "")
            let outputFileName := outputFileNameOf fn env.timestamp
            match saveImageWithProperPath env.save buffer outputFileName with
            | (Except.error m, _) => (Except.error (HErr.failedGenerateImage m), ev2)
            | (Except.ok savedPath, _) =>
              let ev3 := ev2 ++ [Event.writeImage outputFileName buffer]
              let html := htmlPreview (jsStr prompt) story savedPath storyPath
              let htmlFileName := removeFirst outputFileName ".png" ++ "_preview.html"
              let htmlPath := pathJoin (pathDirname savedPath) htmlFileName
              match writeDirect env.save htmlPath html with
              | Except.error m => (Except.error (HErr.failedGenerateImage m), ev3)
              | Except.ok _ =>
                (Except.ok
                  { success := true
                    imagePath := savedPath
                    storyPath := storyPath
                    htmlPath := htmlPath
                    contentText :=
                      "Storybook generated successfully!\nImage saved to: " ++ savedPath ++
                      "\nStory saved to: " ++ storyPath ++ "\nPreview HTML: " ++ htmlPath
                    message := "Storybook image and story generated and saved" },
                 ev3 ++ [Event.writePreview htmlFileName, Event.openPreview htmlPath])
  else
    (Except.error (HErr.unknownTool req.toolName), [])

/-! ## Trace and result projections -/

/-- Names of story files successfully written during a trace. -/
def storyWriteNames (tr : List Event) : List String :=
  tr.filterMap fun e =>
    match e with
    | Event.writeStory n _ => some n
    | _ => none

/-- Names of image files successfully written during a trace. -/
def imageWriteNames (tr : List Event) : List String :=
  tr.filterMap fun e =>
    match e with
    | Event.writeImage n _ => some n
    | _ => none

/-- Byte payloads of image files successfully written during a trace. -/
def imageWriteBytes (tr : List Event) : List (List Nat) :=
  tr.filterMap fun e =>
    match e with
    | Event.writeImage _ b => some b
    | _ => none

/-- Names of preview files successfully written during a trace. -/
def previewWriteNames (tr : List Event) : List String :=
  tr.filterMap fun e =>
    match e with
    | Event.writePreview n => some n
    | _ => none

/-- Prompts of image-generation requests issued during a trace. -/
def imageGenPrompts (tr : List Event) : List String :=
  tr.filterMap fun e =>
    match e with
    | Event.imageGen p => some p
    | _ => none

/-- Whether the boundary outcome is a success result. -/
def resultSuccess (r : Except HErr ToolResult) : Bool :=
  match r with
  | Except.ok t => t.success
  | Except.error _ => false

/-- The image path of a success result. -/
def resultImagePath (r : Except HErr ToolResult) : Option String :=
  match r with
  | Except.ok t => some t.imagePath
  | Except.error _ => none

/-- The story path of a success result. -/
def resultStoryPath (r : Except HErr ToolResult) : Option String :=
  match r with
  | Except.ok t => some t.storyPath
  | Except.error _ => none

/-- The HTML preview path of a success result. -/
def resultHtmlPath (r : Except HErr ToolResult) : Option String :=
  match r with
  | Except.ok t => some t.htmlPath
  | Except.error _ => none

/-- The outcome and trace of the success path of the handler, as a
function of the environment, the arguments, the effective art style and
the inline payload found in the stream. -/
def successResult (env : RunEnv) (p : Option String) (artStyle fn : String) (d : InlineData) :
    Except HErr ToolResult × List Event :=
  let story := generateStory env.storyStream
  let storyFileName := stripExt fn ++ "_story.txt"
  let storyPath := pathJoin (primaryDir env.save) storyFileName
  let outputFileName := outputFileNameOf fn env.timestamp
  let savedPath := pathJoin (primaryDir env.save) outputFileName
  let buffer := base64Decode (d.data.getD "")
  let htmlFileName := removeFirst outputFileName ".png" ++ "_preview.html"
  let htmlPath := pathJoin (pathDirname savedPath) htmlFileName
  (Except.ok
    { success := true
      imagePath := savedPath
      storyPath := storyPath
      htmlPath := htmlPath
      contentText :=
        "Storybook generated successfully!\nImage saved to: " ++ savedPath ++
        "\nStory saved to: " ++ storyPath ++ "\nPreview HTML: " ++ htmlPath
      message := "Storybook image and story generated and saved" },
   [Event.storyGen (mkStoryPrompt (jsStr p)), Event.writeStory storyFileName story,
    Event.imageGen (mkImagePrompt artStyle (jsStr p)), Event.writeImage outputFileName buffer,
    Event.writePreview htmlFileName, Event.openPreview htmlPath])

/-! ## Concrete fixtures for counterexamples and witnesses -/

/-- A Linux system on which every path exists. -/
def sysFix : Sys :=
  { platform := Platform.linux, home := "/home/u", username := "u",
    userprofile := none, xdgDesktop := none, existsSync := fun _ => true }

/-- A local-mode save context in which no filesystem call fails. -/
def saveFix : SaveEnv :=
  { sys := sysFix, saveToDesktop := false, cwd := "/srv",
    mkdirFails := fun _ => false, writeFails := fun _ => false }

/-- A save context whose primary write of "f.txt" fails while everything
else succeeds. -/
def saveFailPrimary : SaveEnv :=
  { sys := sysFix, saveToDesktop := false, cwd := "/srv",
    mkdirFails := fun _ => false,
    writeFails := fun p => p == "/srv/storybook-images/f.txt" }

/-- A chunk carrying inline data whose `data` field is the empty
string. -/
def chunkInlineEmpty : Chunk :=
  { candidates := some [{ content := some { parts := some [{ inlineData := some { data := some "" } }] } }] }

/-- A chunk whose first candidate has two text parts, "A" and "B". -/
def chunkTwoTexts : Chunk :=
  { candidates := some [{ content := some { parts := some [{ text := some "A" }, { text := some "B" }] } }] }

/-- A run environment with a clean filesystem, an empty story stream and
an image stream delivering one empty inline payload. -/
def envImg (ts : String) : RunEnv :=
  { save := saveFix, storyStream := GenStream.chunks [],
    imageStream := GenStream.chunks [chunkInlineEmpty], timestamp := ts }

/-- A run environment whose image stream completes without any inline
payload. -/
def envNoImg : RunEnv :=
  { save := saveFix, storyStream := GenStream.chunks [],
    imageStream := GenStream.chunks [], timestamp := "TS" }

/-- An environment-variable state with all three variables set. -/
def envVarsFix : EnvVars :=
  { geminiApiKey := some "k", saveToDesktop := some "true", debug := some "true" }

/-! ## Helper lemmas -/

/-- String append is left-cancellative. -/
theorem strAppend_inj_right (a : String) {b c : String} (h : a ++ b = a ++ c) : b = c := by
  have h2 := congrArg String.data h
  rw [String.data_append, String.data_append] at h2
  exact String.ext (List.append_cancel_left h2)

/-- String append is right-cancellative. -/
theorem strAppend_inj_left {a b : String} (c : String) (h : a ++ c = b ++ c) : a = b := by
  have h2 := congrArg String.data h
  rw [String.data_append, String.data_append] at h2
  exact String.ext (List.append_cancel_right h2)

/-- `pathJoin` is injective in the second component. -/
theorem pathJoin_inj_right {d n1 n2 : String} (h : pathJoin d n1 = pathJoin d n2) : n1 = n2 :=
  strAppend_inj_right (d ++ "/") h

/-- Distinct timestamps give distinct timestamped image names when the
caller's name does not already end in ".png". -/
theorem outputFileNameOf_inj {fn t1 t2 : String} (hfn : endsWithStr fn ".png" = false)
    (h : outputFileNameOf fn t1 = outputFileNameOf fn t2) : t1 = t2 := by
  rw [outputFileNameOf, outputFileNameOf, hfn] at h
  simp only [Bool.false_eq_true, if_false] at h
  exact strAppend_inj_right (fn ++ "_") (strAppend_inj_left ".png" h)

/-- The error fallback of `generateStory` is never the empty string. -/
theorem storyFallbackError_ne_empty (msg : String) : storyFallbackError msg ≠ "" := by
  intro h
  have h2 := congrArg String.data h
  rw [storyFallbackError, String.data_append, String.data_append] at h2
  simp at h2

/-- With a clean filesystem, `ensureDirectoryExists` succeeds. -/
theorem ensureDirectoryExists_fsOk {e : SaveEnv} (h : fsOk e) (dir : String) :
    ensureDirectoryExists e dir = Except.ok () := by
  rw [ensureDirectoryExists]
  cases hx : e.sys.existsSync dir <;> simp [hx, h.2 dir]

/-- With a clean filesystem, a save lands in the primary directory. -/
theorem saveWithProperPath_fsOk {e : SaveEnv} (h : fsOk e) (fn : String) :
    saveWithProperPath e fn =
      (Except.ok (pathJoin (primaryDir e) fn), [pathJoin (primaryDir e) fn]) := by
  simp [saveWithProperPath, tryPrimarySave, ensureDirectoryExists_fsOk h, h.1]

/-- With a clean filesystem, the direct preview write succeeds. -/
theorem writeDirect_fsOk {e : SaveEnv} (h : fsOk e) (p c : String) :
    writeDirect e p c = Except.ok () := by
  simp [writeDirect, ensureDirectoryExists_fsOk h, h.1]

/-- A non-throwing story-loop iteration yields exactly the first part's
text of the chunk's first candidate. -/
theorem storyChunkText_ok_eq {c : Chunk} (h : exOk (storyChunkText c) = true) :
    storyChunkText c = Except.ok (chunkFirstText c) := by
  rcases c with ⟨cands⟩
  cases cands with
  | none => rfl
  | some l =>
    cases l with
    | nil => simp [storyChunkText, exOk] at h
    | cons cand rest =>
      cases hcc : cand.content with
      | none => simp [storyChunkText, chunkFirstText, hcc]
      | some ct =>
        cases hp : ct.parts with
        | none => simp [storyChunkText, chunkFirstText, hcc, hp]
        | some ps =>
          cases ps with
          | nil => simp [storyChunkText, exOk, hcc, hp] at h
          | cons pt pts => simp [storyChunkText, chunkFirstText, hcc, hp]

/-- When no chunk throws, the story loop returns the accumulator followed
by the concatenated first-part texts. -/
theorem collectStory_ok_concat {cs : List Chunk}
    (h : ∀ c ∈ cs, exOk (storyChunkText c) = true) :
    ∀ acc, collectStory cs acc = Except.ok (acc ++ firstTextsConcat cs) := by
  induction cs with
  | nil => intro acc; simp [collectStory, firstTextsConcat]
  | cons c cs ih =>
    intro acc
    have hc := storyChunkText_ok_eq (h c (List.mem_cons_self _ _))
    have hrest : ∀ x ∈ cs, exOk (storyChunkText x) = true :=
      fun x hx => h x (List.mem_cons_of_mem _ hx)
    rw [collectStory, hc]
    cases hft : chunkFirstText c with
    | none =>
      simp only []
      rw [ih hrest acc]
      simp [firstTextsConcat, hft]
    | some t =>
      simp only []
      rw [ih hrest (acc ++ t)]
      simp [firstTextsConcat, hft, String.append_assoc]

/-- Evaluation of the handler on the success path: clean filesystem,
image stream delivering chunks, and an inline payload found. -/
theorem handler_success_eval (env : RunEnv) (p a : Option String) (fn : String)
    (cs : List Chunk) (d : InlineData)
    (hfs : fsOk env.save) (hstream : env.imageStream = GenStream.chunks cs)
    (hfind : findInline cs = Except.ok (some d)) :
    handler env ⟨"generate_storybook_image", ⟨p, some fn, a⟩⟩ =
      successResult env p (a.getD "3d cartoon") fn d := by
  simp only [handler, hstream, hfind, saveStoryWithProperPath, saveImageWithProperPath,
    saveWithProperPath_fsOk hfs, writeDirect_fsOk hfs, successResult]
  simp

/-- Evaluation of the handler when the image stream completes without any
inline payload. -/
theorem handler_noimage_eval (env : RunEnv) (p a : Option String) (fn : String)
    (cs : List Chunk)
    (hfs : fsOk env.save) (hstream : env.imageStream = GenStream.chunks cs)
    (hnone : findInline cs = Except.ok none) :
    handler env ⟨"generate_storybook_image", ⟨p, some fn, a⟩⟩ =
      (Except.error HErr.noImageData,
       [Event.storyGen (mkStoryPrompt (jsStr p)),
        Event.writeStory (stripExt fn ++ "_story.txt") (generateStory env.storyStream),
        Event.imageGen (mkImagePrompt (a.getD "3d cartoon") (jsStr p))]) := by
  simp only [handler, hstream, hnone, saveStoryWithProperPath,
    saveWithProperPath_fsOk hfs]
  simp

/-- Whatever the image stream does, a clean-filesystem invocation with a
present file name issues exactly one image-generation request, whose
prompt embeds the effective art style. -/
theorem imageGenPrompts_handler (env : RunEnv) (p a : Option String) (fn : String)
    (hfs : fsOk env.save) :
    imageGenPrompts (handler env ⟨"generate_storybook_image", ⟨p, some fn, a⟩⟩).2 =
      [mkImagePrompt (a.getD "3d cartoon") (jsStr p)] := by
  cases hstream : env.imageStream with
  | failure m =>
    simp only [handler, hstream, saveStoryWithProperPath, saveWithProperPath_fsOk hfs]
    simp [imageGenPrompts]
  | chunks cs =>
    cases hfi : findInline cs with
    | error m =>
      simp only [handler, hstream, hfi, saveStoryWithProperPath, saveWithProperPath_fsOk hfs]
      simp [imageGenPrompts]
    | ok od =>
      cases od with
      | none =>
        rw [handler_noimage_eval env p a fn cs hfs hstream hfi]
        simp [imageGenPrompts]
      | some d =>
        rw [handler_success_eval env p a fn cs d hfs hstream hfi]
        simp [successResult, imageGenPrompts]

/-! ## Claim C4 -/

/-- Claim C4: for every upstream story stream — including one yielding
zero text fragments and one that raises an error — `generateStory`
returns a non-empty string and never raises (it is total into `String`):
when no text is produced it returns the fixed fallback narrative string,
and when an error occurs it returns the fallback string embedding the
error message.  The input prompt only shapes the upstream request, so the
statement quantifies over the resulting stream. -/
theorem generateStory_total_nonEmpty :
    (∀ s, generateStory s ≠ "") ∧
    (∀ msg, generateStory (GenStream.failure msg) = storyFallbackError msg) ∧
    (∀ cs, collectStory cs "" = Except.ok "" →
      generateStory (GenStream.chunks cs) = storyFallbackEmpty) ∧
    (∀ cs msg, collectStory cs "" = Except.error msg →
      generateStory (GenStream.chunks cs) = storyFallbackError msg) := by
  refine ⟨?_, fun msg => rfl, ?_, ?_⟩
  · intro s
    cases s with
    | failure msg => exact storyFallbackError_ne_empty msg
    | chunks cs =>
      rw [generateStory]
      cases h : collectStory cs "" with
      | error msg => exact storyFallbackError_ne_empty msg
      | ok txt =>
        by_cases ht : txt = ""
        · simp only [ht, if_pos rfl]
          decide
        · simp only [if_neg ht]
          exact ht
  · intro cs h
    rw [generateStory, h]
    rfl
  · intro cs msg h
    rw [generateStory, h]

/-- Witness for C4 at the empty stream and at a failing stream. -/
theorem generateStory_total_nonEmpty_witness :
    generateStory (GenStream.chunks []) = storyFallbackEmpty ∧
    generateStory (GenStream.failure "boom") = storyFallbackError "boom" :=
  ⟨generateStory_total_nonEmpty.2.2.1 [] rfl, generateStory_total_nonEmpty.2.1 "boom"⟩

/-! ## Claim C9 -/

/-- Counterexample to C9 as stated: a chunk whose first candidate has two
text parts "A" and "B".  The loop reads only `parts[0]`, so the collected
result is "A" while the concatenation of all textual fragments is
"AB". -/
theorem collectStory_drops_later_fragments :
    collectStory [chunkTwoTexts] "" = Except.ok "A" ∧
    specStoryConcat [chunkTwoTexts] = "AB" ∧
    collectStory [chunkTwoTexts] "" ≠ Except.ok (specStoryConcat [chunkTwoTexts]) := by
  refine ⟨rfl, rfl, ?_⟩
  intro h
  rw [show specStoryConcat [chunkTwoTexts] = "AB" from rfl] at h
  rw [show collectStory [chunkTwoTexts] "" = Except.ok "A" from rfl] at h
  injection h with h2
  exact absurd h2 (by decide)

/-- Claim C9 (amended): when no chunk makes the loop throw, the result
before the fallback check equals the concatenation, in stream order, of
the FIRST part's text of each chunk's first candidate (later parts and
later candidates are ignored). -/
theorem collectStory_concats_first_parts (cs : List Chunk)
    (h : ∀ c ∈ cs, exOk (storyChunkText c) = true) :
    collectStory cs "" = Except.ok (firstTextsConcat cs) := by
  have h2 := collectStory_ok_concat h ""
  simpa using h2

/-- Witness for the amended C9 at the two-part chunk. -/
theorem collectStory_concats_first_parts_witness :
    collectStory [chunkTwoTexts] "" = Except.ok (firstTextsConcat [chunkTwoTexts]) :=
  collectStory_concats_first_parts [chunkTwoTexts] (by decide)

/-! ## Claim C6 -/

/-- Claim C6: `getDesktopPath` implements exactly the claimed platform
policy — Windows: USERPROFILE joined with "Desktop" (or the constructed
C:/Users/username/Desktop when USERPROFILE is unset, i.e. JS-falsy),
falling back to the home directory when the candidate does not exist;
macOS: always home/Desktop with no existence check; other Unix-like:
XDG_DESKTOP_DIR if it points to an existing directory, else home/Desktop
if it exists, else the home directory. -/
theorem getDesktopPath_matches_policy : ∀ s : Sys, getDesktopPath s = desktopPathSpec s := by
  intro s
  rcases s with ⟨pf, home, user, up, xdg, ex⟩
  cases pf with
  | win32 =>
    cases up with
    | none => rfl
    | some u => cases hu : u == "" <;> simp [getDesktopPath, desktopPathSpec, jsTruthy, hu]
  | darwin => rfl
  | linux =>
    cases xdg with
    | none => simp [getDesktopPath, desktopPathSpec, jsTruthy, linuxDesktopFallback]
    | some x =>
      cases hx : x == "" <;>
        simp [getDesktopPath, desktopPathSpec, jsTruthy, linuxDesktopFallback, hx]

/-! ## Claim C5 -/

/-- Claim C5: for every payload and file name, when the primary save
attempt fails for any reason (directory creation or write), the writer
performs exactly one retry into the fixed "output" subdirectory of the
working directory — the fallback attempts at most one write, at
`cwd/output/fileName` — and when that retry also fails its error
propagates out of the save function unchanged. -/
theorem save_retries_once_into_output (e : SaveEnv) (fileName m : String)
    (h : (tryPrimarySave e fileName).1 = Except.error m) :
    (∀ b, saveImageWithProperPath e b fileName =
        ((fallbackSave e fileName).1,
         (tryPrimarySave e fileName).2 ++ (fallbackSave e fileName).2)) ∧
    (∀ s, saveStoryWithProperPath e s fileName =
        ((fallbackSave e fileName).1,
         (tryPrimarySave e fileName).2 ++ (fallbackSave e fileName).2)) ∧
    ((fallbackSave e fileName).2 = [] ∨
      (fallbackSave e fileName).2 = [pathJoin (pathJoin e.cwd "output") fileName]) ∧
    (∀ m2, (fallbackSave e fileName).1 = Except.error m2 →
      (saveWithProperPath e fileName).1 = Except.error m2) := by
  have hsw : saveWithProperPath e fileName =
      ((fallbackSave e fileName).1,
       (tryPrimarySave e fileName).2 ++ (fallbackSave e fileName).2) := by
    rw [saveWithProperPath]
    rcases ht : tryPrimarySave e fileName with ⟨r, w⟩
    rw [ht] at h
    simp only at h
    cases r with
    | ok p => exact absurd h (by simp)
    | error m3 => simp
  refine ⟨fun b => hsw, fun s => hsw, ?_, ?_⟩
  · rw [fallbackSave]
    cases he : ensureDirectoryExists e (pathJoin e.cwd "output") with
    | error m2 => simp
    | ok u =>
      cases hw : e.writeFails (pathJoin (pathJoin e.cwd "output") fileName) <;> simp [hw]
  · intro m2 hm2
    rw [hsw]
    exact hm2

/-- Witness for C5: a primary write failure lands the file in
/srv/output. -/
theorem save_retries_once_into_output_witness :
    saveImageWithProperPath saveFailPrimary [7] "f.txt" =
      ((fallbackSave saveFailPrimary "f.txt").1,
       (tryPrimarySave saveFailPrimary "f.txt").2 ++ (fallbackSave saveFailPrimary "f.txt").2) :=
  (save_retries_once_into_output saveFailPrimary "f.txt"
    "EWRITE:/srv/storybook-images/f.txt" (by rfl)).1 [7]

/-! ## Claim C1 -/

/-- Counterexample to C1 as stated: an invocation whose `prompt` argument
is missing does not fail at all — there is no argument validation, the
story and image generations run with the literal string "undefined" as
the prompt, files are written, and the invocation succeeds. -/
theorem missing_prompt_no_validation :
    resultSuccess (handler (envImg "TS")
      ⟨"generate_storybook_image", ⟨none, some "pic", none⟩⟩).1 = true ∧
    imageGenPrompts (handler (envImg "TS")
      ⟨"generate_storybook_image", ⟨none, some "pic", none⟩⟩).2 =
      [mkImagePrompt "3d cartoon" "undefined"] ∧
    storyWriteNames (handler (envImg "TS")
      ⟨"generate_storybook_image", ⟨none, some "pic", none⟩⟩).2 = ["pic_story.txt"] :=
  ⟨rfl, rfl, rfl⟩

/-- Claim C1 (amended): there is no argument validation.  When `fileName`
is missing, the invocation fails with an invocation-level internal error
(the TypeError thrown by `fileName.replace`, caught and wrapped at the
pipeline boundary) after story generation has already run but before any
file write; the handler returns the error, so the process continues
serving invocations.  A missing `prompt` alone causes no failure. -/
theorem missing_fileName_fails_after_story_generation (env : RunEnv) (p a : Option String) :
    handler env ⟨"generate_storybook_image", ⟨p, none, a⟩⟩ =
      (Except.error (HErr.errorProcessing
        "Cannot read properties of undefined (reading 'replace')"),
       [Event.storyGen (mkStoryPrompt (jsStr p))]) := rfl

/-! ## Claim C2 -/

/-- Counterexample to C2 as stated: with the shared `fileName`
"pic.png", different prompts and different timestamps, both invocations
write the image under the very same name and path (no timestamp suffix is
appended when the name already ends in ".png"), so the second invocation
overwrites the image file as well as the story file. -/
theorem png_fileName_overwrites_image :
    imageWriteNames (handler (envImg "T1")
      ⟨"generate_storybook_image", ⟨some "p1", some "pic.png", none⟩⟩).2 = ["pic.png"] ∧
    imageWriteNames (handler (envImg "T2")
      ⟨"generate_storybook_image", ⟨some "p2", some "pic.png", none⟩⟩).2 = ["pic.png"] ∧
    resultImagePath (handler (envImg "T1")
      ⟨"generate_storybook_image", ⟨some "p1", some "pic.png", none⟩⟩).1 =
      resultImagePath (handler (envImg "T2")
        ⟨"generate_storybook_image", ⟨some "p2", some "pic.png", none⟩⟩).1 ∧
    storyWriteNames (handler (envImg "T1")
      ⟨"generate_storybook_image", ⟨some "p1", some "pic.png", none⟩⟩).2 = ["pic_story.txt"] ∧
    storyWriteNames (handler (envImg "T2")
      ⟨"generate_storybook_image", ⟨some "p2", some "pic.png", none⟩⟩).2 = ["pic_story.txt"] :=
  ⟨rfl, rfl, rfl, rfl, rfl⟩

/-- Claim C2 (amended): for back-to-back successful invocations with the
same non-empty `fileName` NOT already ending in ".png", different
prompts, and distinct timestamps, the two image files get distinct
timestamp-suffixed names (and distinct paths), while the story file name
is identical in both invocations (no uniqueness suffix), so the second
invocation overwrites the first's story file but not its image file.
When the name ends in ".png" the image file is overwritten too (see the
counterexample). -/
theorem distinct_image_names_same_story_name
    (env1 env2 : RunEnv) (p1 p2 a1 a2 : Option String) (fn : String)
    (cs1 cs2 : List Chunk) (d1 d2 : InlineData)
    (hfs1 : fsOk env1.save) (hfs2 : fsOk env2.save) (hsame : env1.save = env2.save)
    (hfn : endsWithStr fn ".png" = false) (hne : fn ≠ "") (hp : p1 ≠ p2)
    (ht : env1.timestamp ≠ env2.timestamp)
    (hs1 : env1.imageStream = GenStream.chunks cs1)
    (hf1 : findInline cs1 = Except.ok (some d1))
    (hs2 : env2.imageStream = GenStream.chunks cs2)
    (hf2 : findInline cs2 = Except.ok (some d2)) :
    imageWriteNames (handler env1 ⟨"generate_storybook_image", ⟨p1, some fn, a1⟩⟩).2 =
      [fn ++ "_" ++ env1.timestamp ++ ".png"] ∧
    imageWriteNames (handler env2 ⟨"generate_storybook_image", ⟨p2, some fn, a2⟩⟩).2 =
      [fn ++ "_" ++ env2.timestamp ++ ".png"] ∧
    fn ++ "_" ++ env1.timestamp ++ ".png" ≠ fn ++ "_" ++ env2.timestamp ++ ".png" ∧
    storyWriteNames (handler env1 ⟨"generate_storybook_image", ⟨p1, some fn, a1⟩⟩).2 =
      [stripExt fn ++ "_story.txt"] ∧
    storyWriteNames (handler env2 ⟨"generate_storybook_image", ⟨p2, some fn, a2⟩⟩).2 =
      [stripExt fn ++ "_story.txt"] ∧
    resultStoryPath (handler env1 ⟨"generate_storybook_image", ⟨p1, some fn, a1⟩⟩).1 =
      resultStoryPath (handler env2 ⟨"generate_storybook_image", ⟨p2, some fn, a2⟩⟩).1 ∧
    resultImagePath (handler env1 ⟨"generate_storybook_image", ⟨p1, some fn, a1⟩⟩).1 ≠
      resultImagePath (handler env2 ⟨"generate_storybook_image", ⟨p2, some fn, a2⟩⟩).1 := by
  have hofn1 : outputFileNameOf fn env1.timestamp = fn ++ "_" ++ env1.timestamp ++ ".png" := by
    simp [outputFileNameOf, hfn]
  have hofn2 : outputFileNameOf fn env2.timestamp = fn ++ "_" ++ env2.timestamp ++ ".png" := by
    simp [outputFileNameOf, hfn]
  rw [handler_success_eval env1 p1 a1 fn cs1 d1 hfs1 hs1 hf1,
      handler_success_eval env2 p2 a2 fn cs2 d2 hfs2 hs2 hf2]
  refine ⟨?_, ?_, ?_, ?_, ?_, ?_, ?_⟩
  · simp [successResult, imageWriteNames, hofn1]
  · simp [successResult, imageWriteNames, hofn2]
  · intro hcontra
    exact ht (strAppend_inj_right (fn ++ "_") (strAppend_inj_left ".png" hcontra))
  · simp [successResult, storyWriteNames]
  · simp [successResult, storyWriteNames]
  · simp only [successResult, resultStoryPath, hsame]
  · simp only [successResult, resultImagePath, hsame, hofn1, hofn2]
    intro hcontra
    have h2 := pathJoin_inj_right (Option.some.inj hcontra)
    exact ht (strAppend_inj_right (fn ++ "_") (strAppend_inj_left ".png" h2))

/-- Witness for the amended C2: file name "pic", timestamps "T1" and
"T2". -/
theorem distinct_image_names_same_story_name_witness :
    imageWriteNames (handler (envImg "T1")
      ⟨"generate_storybook_image", ⟨some "p1", some "pic", none⟩⟩).2 = ["pic_T1.png"] ∧
    imageWriteNames (handler (envImg "T2")
      ⟨"generate_storybook_image", ⟨some "p2", some "pic", none⟩⟩).2 = ["pic_T2.png"] ∧
    ("pic_T1.png" : String) ≠ "pic_T2.png" ∧
    storyWriteNames (handler (envImg "T1")
      ⟨"generate_storybook_image", ⟨some "p1", some "pic", none⟩⟩).2 = ["pic_story.txt"] ∧
    storyWriteNames (handler (envImg "T2")
      ⟨"generate_storybook_image", ⟨some "p2", some "pic", none⟩⟩).2 = ["pic_story.txt"] ∧
    resultStoryPath (handler (envImg "T1")
      ⟨"generate_storybook_image", ⟨some "p1", some "pic", none⟩⟩).1 =
      resultStoryPath (handler (envImg "T2")
        ⟨"generate_storybook_image", ⟨some "p2", some "pic", none⟩⟩).1 ∧
    resultImagePath (handler (envImg "T1")
      ⟨"generate_storybook_image", ⟨some "p1", some "pic", none⟩⟩).1 ≠
      resultImagePath (handler (envImg "T2")
        ⟨"generate_storybook_image", ⟨some "p2", some "pic", none⟩⟩).1 :=
  distinct_image_names_same_story_name (envImg "T1") (envImg "T2")
    (some "p1") (some "p2") none none "pic" [chunkInlineEmpty] [chunkInlineEmpty]
    ⟨some ""⟩ ⟨some ""⟩
    ⟨fun _ => rfl, fun _ => rfl⟩ ⟨fun _ => rfl, fun _ => rfl⟩ rfl rfl
    (by decide) (by decide) (by decide) rfl rfl rfl rfl

/-! ## Claim C3 -/

/-- Claim C3: when the image stream completes with no chunk carrying an
inline-data payload, the handler raises the distinguished
no-image-data invocation-level protocol error, writes no image file and
no preview file, and the story file written in the earlier step remains
the only write of the invocation (the model has no delete operation, so
the written story file stays on disk). -/
theorem no_inline_payload_error (env : RunEnv) (p a : Option String) (fn : String)
    (cs : List Chunk)
    (hfs : fsOk env.save) (hstream : env.imageStream = GenStream.chunks cs)
    (hnone : findInline cs = Except.ok none) :
    (handler env ⟨"generate_storybook_image", ⟨p, some fn, a⟩⟩).1 =
      Except.error HErr.noImageData ∧
    storyWriteNames (handler env ⟨"generate_storybook_image", ⟨p, some fn, a⟩⟩).2 =
      [stripExt fn ++ "_story.txt"] ∧
    imageWriteNames (handler env ⟨"generate_storybook_image", ⟨p, some fn, a⟩⟩).2 = [] ∧
    previewWriteNames (handler env ⟨"generate_storybook_image", ⟨p, some fn, a⟩⟩).2 = [] := by
  rw [handler_noimage_eval env p a fn cs hfs hstream hnone]
  refine ⟨rfl, ?_, ?_, ?_⟩ <;>
    simp [storyWriteNames, imageWriteNames, previewWriteNames]

/-- Witness for C3 at an empty image stream. -/
theorem no_inline_payload_error_witness :
    (handler envNoImg ⟨"generate_storybook_image", ⟨some "p", some "pic", none⟩⟩).1 =
      Except.error HErr.noImageData ∧
    storyWriteNames (handler envNoImg
      ⟨"generate_storybook_image", ⟨some "p", some "pic", none⟩⟩).2 = ["pic_story.txt"] ∧
    imageWriteNames (handler envNoImg
      ⟨"generate_storybook_image", ⟨some "p", some "pic", none⟩⟩).2 = [] ∧
    previewWriteNames (handler envNoImg
      ⟨"generate_storybook_image", ⟨some "p", some "pic", none⟩⟩).2 = [] :=
  no_inline_payload_error envNoImg (some "p") none "pic" []
    ⟨fun _ => rfl, fun _ => rfl⟩ rfl rfl

/-! ## Claim C7 -/

/-- Counterexample to C7 as stated: the out-of-enum art style "graffiti"
is NOT replaced by the default — it is embedded verbatim in the image
prompt. -/
theorem invalid_artStyle_used_verbatim :
    imageGenPrompts (handler (envImg "TS")
      ⟨"generate_storybook_image", ⟨some "p", some "pic", some "graffiti"⟩⟩).2 =
      [mkImagePrompt "graffiti" "p"] ∧
    mkImagePrompt "graffiti" "p" ≠ mkImagePrompt "3d cartoon" "p" := by
  refine ⟨rfl, ?_⟩
  decide

/-- Claim C7 (amended): the handler enforces no art-style enum — any
string supplied for `artStyle` (valid or not) is used verbatim in the
image prompt; only when `artStyle` is absent does the destructuring
default "3d cartoon" apply.  The enum lives solely in the declared input
schema. -/
theorem artStyle_default_only_when_absent (env : RunEnv) (p : Option String) (fn s : String)
    (hfs : fsOk env.save) :
    imageGenPrompts (handler env ⟨"generate_storybook_image", ⟨p, some fn, some s⟩⟩).2 =
      [mkImagePrompt s (jsStr p)] ∧
    imageGenPrompts (handler env ⟨"generate_storybook_image", ⟨p, some fn, none⟩⟩).2 =
      [mkImagePrompt "3d cartoon" (jsStr p)] :=
  ⟨imageGenPrompts_handler env p (some s) fn hfs, imageGenPrompts_handler env p none fn hfs⟩

/-- Witness for the amended C7 with the valid style "watercolor" and an
absent style. -/
theorem artStyle_default_only_when_absent_witness :
    imageGenPrompts (handler (envImg "TS")
      ⟨"generate_storybook_image", ⟨some "p", some "pic", some "watercolor"⟩⟩).2 =
      [mkImagePrompt "watercolor" "p"] ∧
    imageGenPrompts (handler (envImg "TS")
      ⟨"generate_storybook_image", ⟨some "p", some "pic", none⟩⟩).2 =
      [mkImagePrompt "3d cartoon" "p"] :=
  artStyle_default_only_when_absent (envImg "TS") (some "p") "pic" "watercolor"
    ⟨fun _ => rfl, fun _ => rfl⟩

/-! ## Claim C10 -/

/-- Claim C10: when the first inline-data chunk's `data` field is absent
or empty, the handler decodes it to an empty byte buffer
(`Buffer.from(data || '', 'base64')`), writes a zero-byte image file, and
returns a success result carrying all three artifact paths — an empty
image payload is never reported as an error. -/
theorem empty_inline_payload_success (env : RunEnv) (p a : Option String) (fn : String)
    (cs : List Chunk) (d : InlineData)
    (hfs : fsOk env.save) (hstream : env.imageStream = GenStream.chunks cs)
    (hfind : findInline cs = Except.ok (some d))
    (hdata : d.data = none ∨ d.data = some "") :
    resultSuccess (handler env ⟨"generate_storybook_image", ⟨p, some fn, a⟩⟩).1 = true ∧
    imageWriteBytes (handler env ⟨"generate_storybook_image", ⟨p, some fn, a⟩⟩).2 = [[]] ∧
    resultImagePath (handler env ⟨"generate_storybook_image", ⟨p, some fn, a⟩⟩).1 =
      some (pathJoin (primaryDir env.save) (outputFileNameOf fn env.timestamp)) ∧
    resultStoryPath (handler env ⟨"generate_storybook_image", ⟨p, some fn, a⟩⟩).1 =
      some (pathJoin (primaryDir env.save) (stripExt fn ++ "_story.txt")) ∧
    resultHtmlPath (handler env ⟨"generate_storybook_image", ⟨p, some fn, a⟩⟩).1 =
      some (pathJoin
        (pathDirname (pathJoin (primaryDir env.save) (outputFileNameOf fn env.timestamp)))
        (removeFirst (outputFileNameOf fn env.timestamp) ".png" ++ "_preview.html")) := by
  have hd : d.data.getD "" = "" := by rcases hdata with h | h <;> simp [h]
  rw [handler_success_eval env p a fn cs d hfs hstream hfind]
  refine ⟨rfl, ?_, rfl, rfl, rfl⟩
  simp [successResult, imageWriteBytes, hd, base64Decode, decodeGroups]

/-- Witness for C10 at an inline chunk whose data is the empty string. -/
theorem empty_inline_payload_success_witness :
    resultSuccess (handler (envImg "TS")
      ⟨"generate_storybook_image", ⟨some "p", some "pic", none⟩⟩).1 = true ∧
    imageWriteBytes (handler (envImg "TS")
      ⟨"generate_storybook_image", ⟨some "p", some "pic", none⟩⟩).2 = [[]] ∧
    resultImagePath (handler (envImg "TS")
      ⟨"generate_storybook_image", ⟨some "p", some "pic", none⟩⟩).1 =
      some "/srv/storybook-images/pic_TS.png" ∧
    resultStoryPath (handler (envImg "TS")
      ⟨"generate_storybook_image", ⟨some "p", some "pic", none⟩⟩).1 =
      some "/srv/storybook-images/pic_story.txt" ∧
    resultHtmlPath (handler (envImg "TS")
      ⟨"generate_storybook_image", ⟨some "p", some "pic", none⟩⟩).1 =
      some "/srv/storybook-images/pic_TS_preview.html" :=
  empty_inline_payload_success (envImg "TS") (some "p") none "pic" [chunkInlineEmpty]
    ⟨some ""⟩ ⟨fun _ => rfl, fun _ => rfl⟩ rfl rfl (Or.inr rfl)

/-! ## Claim C8 -/

/-- Claim C8 (code evaluated at the failing input): with GEMINI_API_KEY,
SAVE_TO_DESKTOP="true" and DEBUG="true" all set in the environment and an
empty command line, the bootstrap wiring overwrites SAVE_TO_DESKTOP and
DEBUG with "false" — the parser's `default: false` erases the
passed/not-passed distinction, so environment values do NOT survive an
absent flag — while the API key keeps the claimed precedence (CLI value
when present, else the environment variable). -/
theorem cli_flags_clobber_env :
    applyCliToEnv (parseArgv []) envVarsFix =
      { geminiApiKey := some "k", saveToDesktop := some "false", debug := some "false" } ∧
    resolveApiKey none envVarsFix = some "k" ∧
    resolveApiKey (some "cli") envVarsFix = some "cli" :=
  ⟨rfl, rfl, rfl⟩

end Storybook
